import Mathlib

/-!
Verification of the tinyrealms real-time world-synchronization core.

Shallow embedding of the client-side interpolation / presence code in
`src/engine/ObjectLayer.ts` (EntityLayer.update, EntityLayer.updatePresence,
PresenceManager), the map-editor combat-settings inputs in
`src/editor/MapEditorPanel.ts`, and (modelled from the spec, the server file
being absent from the sources) the Combat Resolver.

JS numbers are modelled as rationals (ℚ); wall-clock times are rationals.
PIXI rendering objects (containers, sprites, labels' styling) carry no
state read back by the synchronization logic and are omitted; the textual
label content is kept. JS `Map<string, T>` is modelled as `String → Option T`.
-/

/-- Constant from ObjectLayer.ts line 861: render this far behind now. -/
def INTERP_DELAY_MS : ℚ := 300

/-- Constant from ObjectLayer.ts line 862: ring-buffer bound per remote player. -/
def INTERP_MAX_SNAPSHOTS : Nat := 6

/-- Constant from ObjectLayer.ts line 863: snap threshold for teleport-level corrections. -/
def REMOTE_SNAP_DISTANCE_PX : ℚ := 96

/-- One interpolation snapshot pushed by `EntityLayer.updatePresence`
(ObjectLayer.ts lines 1620-1628). -/
structure Snap where
  x : ℚ
  y : ℚ
  vx : ℚ
  vy : ℚ
  direction : String
  animation : String
  time : ℚ
deriving Repr, DecidableEq, Inhabited

/-- The bracket-search loop of `EntityLayer.update` (ObjectLayer.ts lines
1314-1315): starting from index `i`, decrement while `i > 0` and
`snaps[i].time > renderTime`. -/
def bDown (snaps : List Snap) (rt : ℚ) : Nat → Nat
  | 0 => 0
  | i + 1 => if rt < (snaps.getD (i + 1) default).time then bDown snaps rt i else i + 1

/-- Body of the two-snapshot interpolation branch of `EntityLayer.update`
(ObjectLayer.ts lines 1316-1332), given the bracket index `i` found by the
while loop: `a = snaps[i]`, `b = snaps[min(i+1, len-1)]`; hold when `a === b`
(same index) or equal times, otherwise lerp with the parameter clamped to
`[0,1]`. Returns `(targetX, targetY, interpDir, interpAnim)`. -/
def interpPair (snaps : List Snap) (rt : ℚ) (i : Nat) : ℚ × ℚ × String × String :=
  let a := snaps.getD i default
  let b := snaps.getD (min (i + 1) (snaps.length - 1)) default
  if min (i + 1) (snaps.length - 1) = i ∨ a.time = b.time then
    (a.x, a.y, a.direction, a.animation)
  else
    let t := max 0 (min 1 ((rt - a.time) / (b.time - a.time)))
    (a.x + (b.x - a.x) * t, a.y + (b.y - a.y) * t,
      (if t < 1 / 2 then a.direction else b.direction),
      (if t < 1 / 2 then a.animation else b.animation))

/-- The per-remote interpolation target of `EntityLayer.update`
(ObjectLayer.ts lines 1306-1342): two or more snapshots interpolate via
`interpPair` at the bracket index; exactly one snapshot holds at it
(no velocity-based prediction); an empty buffer yields no update (`none`). -/
def interpTarget (snaps : List Snap) (rt : ℚ) : Option (ℚ × ℚ × String × String) :=
  if 2 ≤ snaps.length then
    some (interpPair snaps rt (bDown snaps rt (snaps.length - 1)))
  else if snaps.length = 1 then
    some ((snaps.getD 0 default).x, (snaps.getD 0 default).y,
          (snaps.getD 0 default).direction, (snaps.getD 0 default).animation)
  else none

/-- Direction debounce of `EntityLayer.update` (ObjectLayer.ts lines
1361-1370): when the interpolated direction differs from the current one,
increment `directionHoldFrames` and apply once the counter reaches 2;
otherwise reset the counter. Returns `(newDirection, newHoldFrames)`. -/
def dirStep (direction : String) (holdFrames : Nat) (interpDir : String) : String × Nat :=
  if interpDir ≠ direction then
    if holdFrames + 1 ≥ 2 then (interpDir, 0) else (direction, holdFrames + 1)
  else (direction, 0)

/-- Client-local state kept per remote player (ObjectLayer.ts lines
1600-1612); the PIXI container/sprite/spritesheet objects are omitted,
the label keeps only its text. -/
structure RemoteState where
  spriteUrl : String
  label : String
  snapshots : List Snap
  renderX : ℚ
  renderY : ℚ
  direction : String
  animation : String
  directionHoldFrames : Nat
deriving Repr, DecidableEq, Inhabited

/-- One remote player's step of `EntityLayer.update` (ObjectLayer.ts lines
1305-1383): compute the interpolation target, run the snap-distance check
(whose two branches both assign the target, lines 1344-1354), debounce the
direction, and adopt the interpolated animation. -/
def updateRemote (remote : RemoteState) (rt : ℚ) : RemoteState :=
  match interpTarget remote.snapshots rt with
  | none => remote
  | some (tx, ty, iDir, iAnim) =>
    let cdx := tx - remote.renderX
    let cdy := ty - remote.renderY
    let r1 :=
      if cdx * cdx + cdy * cdy > REMOTE_SNAP_DISTANCE_PX * REMOTE_SNAP_DISTANCE_PX then
        { remote with renderX := tx, renderY := ty }
      else
        { remote with renderX := tx, renderY := ty }
    let d := dirStep r1.direction r1.directionHoldFrames iDir
    { r1 with direction := d.1, directionHoldFrames := d.2, animation := iAnim }

/-- The same per-remote update step with the snap-distance conditional of
ObjectLayer.ts lines 1348-1354 removed: the rendered position always moves
directly to the computed interpolation target. -/
def updateRemoteNoSnap (remote : RemoteState) (rt : ℚ) : RemoteState :=
  match interpTarget remote.snapshots rt with
  | none => remote
  | some (tx, ty, iDir, iAnim) =>
    let r1 := { remote with renderX := tx, renderY := ty }
    let d := dirStep r1.direction r1.directionHoldFrames iDir
    { r1 with direction := d.1, directionHoldFrames := d.2, animation := iAnim }

/-- One element of the live presence feed as mapped by
`PresenceManager.start` (ObjectLayer.ts lines 1768-1779). -/
structure PresenceData where
  profileId : String
  name : String
  spriteUrl : String
  x : ℚ
  y : ℚ
  vx : ℚ
  vy : ℚ
  direction : String
  animation : String
  lastSeen : ℚ
deriving Repr, DecidableEq, Inhabited

/-- The `remotePlayers` JS `Map`, modelled as a partial function on keys. -/
def RPMap : Type := String → Option RemoteState

/-- Snapshot built from one presence entry at local receipt time
(ObjectLayer.ts lines 1620-1628). -/
def mkSnap (p : PresenceData) (now : ℚ) : Snap :=
  { x := p.x, y := p.y, vx := p.vx, vy := p.vy,
    direction := p.direction, animation := p.animation, time := now }

/-- Fresh remote-player record created by `EntityLayer.updatePresence` for a
profileId not yet tracked (ObjectLayer.ts lines 1600-1612). -/
def newRemote (p : PresenceData) : RemoteState :=
  { spriteUrl := p.spriteUrl,
    label := (if p.name = "" then "Player" else p.name),
    snapshots := [],
    renderX := p.x, renderY := p.y,
    direction := p.direction, animation := p.animation,
    directionHoldFrames := 0 }

/-- The snapshot-trim loop of `EntityLayer.updatePresence` (ObjectLayer.ts
lines 1630-1632): `while (snapshots.length > INTERP_MAX_SNAPSHOTS) shift()`. -/
def trimOld : List Snap → List Snap
  | [] => []
  | s :: rest =>
    if (s :: rest).length > INTERP_MAX_SNAPSHOTS then trimOld rest else s :: rest

/-- Processing of one presence entry by `EntityLayer.updatePresence`
(ObjectLayer.ts lines 1573-1636): reuse or create the remote record, push a
snapshot, trim the buffer, refresh the label text. -/
def processOne (m : RPMap) (p : PresenceData) (now : ℚ) : RPMap :=
  let base := match m p.profileId with
    | some r => r
    | none => newRemote p
  let r2 := { base with
    snapshots := trimOld (base.snapshots ++ [mkSnap p now]),
    label := (if p.name = "" then "Player" else p.name) }
  fun k => if k = p.profileId then some r2 else m k

/-- The profileIds collected into `activeIds` by `EntityLayer.updatePresence`
(ObjectLayer.ts lines 1569-1571): every feed entry except the local player. -/
def activeIds (ps : List PresenceData) (localId : String) : List String :=
  (ps.filter (fun p => p.profileId ≠ localId)).map (fun p => p.profileId)

/-- Function `EntityLayer.updatePresence` (ObjectLayer.ts lines 1565-1646):
fold the feed entries over the remote-player map (skipping the local
player), then delete every tracked entity whose id is absent from the feed. -/
def updatePresence (m : RPMap) (ps : List PresenceData) (localId : String) (now : ℚ) : RPMap :=
  let m2 := ps.foldl (fun acc p => if p.profileId = localId then acc else processOne acc p now) m
  fun k => if k ∈ activeIds ps localId then m2 k else none

/-- Player position/motion sample returned by `getPlayerPosition`
(ObjectLayer.ts lines 1696-1704). -/
structure PlayerPos where
  x : ℚ
  y : ℚ
  vx : ℚ
  vy : ℚ
  direction : String
deriving Repr, DecidableEq, Inhabited

/-- The throttle state of `PresenceManager` (ObjectLayer.ts lines 1736-1738). -/
structure PresenceMgrState where
  lastPresenceX : ℚ
  lastPresenceY : ℚ
  lastPresenceSentAt : ℚ
deriving Repr, DecidableEq, Inhabited

/-- Argument record of the `presence.update` mutation sent by
`PresenceManager.publishPresence` (ObjectLayer.ts lines 1829-1842). -/
structure PresenceMutationCall where
  profileId : String
  mapName : String
  x : ℚ
  y : ℚ
  vx : ℚ
  vy : ℚ
  direction : String
  animation : String
  spriteUrl : String
  name : String
deriving Repr, DecidableEq, Inhabited

/-- Function `PresenceManager.publishPresence` (ObjectLayer.ts lines
1810-1843). `thr` and `hb` stand for `PRESENCE_MOVE_THRESHOLD_PX` and
`PRESENCE_STATIONARY_HEARTBEAT_MS` (imported from
`src/config/multiplayer-config.ts`, not among the sources, hence
parameters). Returns the updated throttle state and the mutation sent, or
`none` when the gate suppresses the publish. -/
def publishPresence (thr hb : ℚ) (profileId mapName spriteUrl nm : String)
    (st : PresenceMgrState) (pos : PlayerPos) (moving : Bool) (now : ℚ) (force : Bool) :
    PresenceMgrState × Option PresenceMutationCall :=
  let dx := pos.x - st.lastPresenceX
  let dy := pos.y - st.lastPresenceY
  let moved := dx * dx + dy * dy ≥ thr * thr
  let heartbeatDue := now - st.lastPresenceSentAt ≥ hb
  if ¬force ∧ ¬moved ∧ ¬heartbeatDue then (st, none)
  else
    ({ lastPresenceX := pos.x, lastPresenceY := pos.y, lastPresenceSentAt := now },
      some { profileId := profileId, mapName := mapName,
             x := pos.x, y := pos.y, vx := pos.vx, vy := pos.vy,
             direction := pos.direction,
             animation := (if moving then "walk" else "idle"),
             spriteUrl := spriteUrl, name := nm })

/-- One publish cycle including the asynchronous mutation delivery
(ObjectLayer.ts lines 1829-1842): `deliver` stands for the store executing
the `presence.update` mutation; the attached `.catch` turns a rejection
into a `console.warn` log entry, so the cycle always resolves (`Except.ok`)
and never rethrows to the caller. -/
def publishCycleWith (thr hb : ℚ) (profileId mapName spriteUrl nm : String)
    (st : PresenceMgrState) (pos : PlayerPos) (moving : Bool) (now : ℚ) (force : Bool)
    (deliver : PresenceMutationCall → Except String Unit) :
    Except String (PresenceMgrState × List String) :=
  match publishPresence thr hb profileId mapName spriteUrl nm st pos moving now force with
  | (st2, none) => Except.ok (st2, [])
  | (st2, some m) =>
    match deliver m with
    | Except.ok _ => Except.ok (st2, [])
    | Except.error e => Except.ok (st2, ["Presence update failed: " ++ e])

/-- Observable side effects set up by `PresenceManager.start` and performed
by `PresenceManager.stop` (ObjectLayer.ts lines 1747-1808 and 1845-1869). -/
inductive PMEffect where
  | publishNow (force : Bool)
  | installPresenceTimer
  | subscribePresenceFeed
  | installSaveTimer
  | installUnloadHandler
  | sendPresenceRemove
deriving Repr, DecidableEq

/-- Effects of `PresenceManager.start` in program order (ObjectLayer.ts lines
1747-1808): the forced first publish and the polling timer, the position-save
timer and the unload handlers are all guarded by `!isGuest()`; the presence
feed subscription is unconditional. -/
def startEffects (isGuest : Bool) : List PMEffect :=
  (if isGuest then [] else [PMEffect.publishNow true, PMEffect.installPresenceTimer]) ++
  [PMEffect.subscribePresenceFeed] ++
  (if isGuest then [] else [PMEffect.installSaveTimer, PMEffect.installUnloadHandler])

/-- Store mutations performed by `PresenceManager.stop` (ObjectLayer.ts lines
1845-1869): timers and subscription are cleared locally, and the
`presence.remove` mutation is sent only when `!isGuest()`. -/
def stopEffects (isGuest : Bool) : List PMEffect :=
  if isGuest then [] else [PMEffect.sendPresenceRemove]

/-- Per-map combat settings record written by the map-settings editor
(MapEditorPanel.ts, `mapData.combatSettings`); each field is optional until
first written. -/
structure MapCombatSettings where
  attackRangePx : Option ℤ
  playerAttackCooldownMs : Option ℤ
  npcHitCooldownMs : Option ℤ
  damageVariancePct : Option ℤ
deriving Repr, DecidableEq, Inhabited

/-- JavaScript `Math.round`: half-up rounding, `⌊q + 1/2⌋`. -/
def jsRound (q : ℚ) : ℤ := ⌊q + 1 / 2⌋

/-- The clamp applied by every combat-settings input handler
(MapEditorPanel.ts lines 1833-1836 etc.): `Math.max(lo, Math.min(hi, Math.round(n)))`. -/
def clampSetting (lo hi : ℤ) (n : ℚ) : ℤ := max lo (min hi (jsRound n))

/-- Input handler of the Attack Range field (MapEditorPanel.ts lines
1827-1837). `lo`/`hi` stand for `COMBAT_ATTACK_RANGE_MIN_PX`/`MAX_PX`
(from `src/config/combat-config.ts`, not among the sources, hence
parameters); `v = none` models a non-finite `Number(input.value)`,
on which the handler returns without storing. -/
def attackRangeInput (lo hi : ℤ) (s : MapCombatSettings) (v : Option ℚ) : MapCombatSettings :=
  match v with
  | none => s
  | some n => { s with attackRangePx := some (clampSetting lo hi n) }

/-- Input handler of the Atk Cooldown field (MapEditorPanel.ts lines
1853-1863), bounds `COMBAT_PLAYER_ATTACK_COOLDOWN_MIN_MS`/`MAX_MS`. -/
def playerAttackCooldownInput (lo hi : ℤ) (s : MapCombatSettings) (v : Option ℚ) : MapCombatSettings :=
  match v with
  | none => s
  | some n => { s with playerAttackCooldownMs := some (clampSetting lo hi n) }

/-- Input handler of the Hit Recovery field (MapEditorPanel.ts lines
1879-1889), bounds `COMBAT_NPC_HIT_COOLDOWN_MIN_MS`/`MAX_MS`. -/
def npcHitCooldownInput (lo hi : ℤ) (s : MapCombatSettings) (v : Option ℚ) : MapCombatSettings :=
  match v with
  | none => s
  | some n => { s with npcHitCooldownMs := some (clampSetting lo hi n) }

/-- Input handler of the Dmg Variance field (MapEditorPanel.ts lines
1905-1915), bounds `COMBAT_DAMAGE_VARIANCE_MIN_PCT`/`MAX_PCT`. -/
def damageVarianceInput (lo hi : ℤ) (s : MapCombatSettings) (v : Option ℚ) : MapCombatSettings :=
  match v with
  | none => s
  | some n => { s with damageVariancePct := some (clampSetting lo hi n) }

/-- Modelled from the spec: effective per-map `CombatSettings` read by the
Combat Resolver (`convex/mechanics/combat.ts` is not among the sources);
spec section 3 "CombatSettings" and section 4.4. -/
structure CombatSettingsSpec where
  combatEnabled : Bool
  attackRangePx : ℚ
  playerAttackCooldownMs : ℚ
  npcHitCooldownMs : ℚ
  damageVariancePct : ℚ
deriving Repr, DecidableEq, Inhabited

/-- Modelled from the spec: the combat-relevant fields of an `NpcState` row
(spec section 3 "NpcState"); `convex/mechanics/combat.ts` is not among the
sources. -/
structure NpcCombatState where
  x : ℚ
  y : ℚ
  currentHp : ℤ
  maxHp : ℤ
  lastHitAt : Option ℚ
  defeatedAt : Option ℚ
  respawnAt : Option ℚ
deriving Repr, DecidableEq, Inhabited

/-- Modelled from the spec: structured outcome of an attack resolution
(spec sections 4.4 and 7: rejections are returned inline with an explicit
reason, never thrown). -/
inductive AttackOutcome where
  | rejected (reason : String)
  | hit (damage : ℤ) (defeated : Bool) (xpGained : ℤ)
deriving Repr, DecidableEq

/-- Modelled from the spec: the per-target hit-cooldown gate of the Combat
Resolver (spec section 4.4: "reject if the target's `lastHitAt` is within
`npcHitCooldownMs`"). -/
def cooldownActive (lastHitAt : Option ℚ) (now cd : ℚ) : Bool :=
  match lastHitAt with
  | some t => decide (now - t < cd)
  | none => false

/-- Modelled from the spec: the attack flow of the Combat Resolver against a
fixed target (`combat.attackNearestHostile` in `convex/mechanics/combat.ts`,
not among the sources; spec section 4.4): reject when combat is disabled,
when the target is already defeated, when it is out of `attackRangePx`, or
when `lastHitAt` is within `npcHitCooldownMs`; otherwise deduct the damage
roll `dmg`, stamp `lastHitAt`, and on HP ≤ 0 set `defeatedAt`/`respawnAt`
and grant the XP reward, all in the same resolution. -/
def attackTarget (cfg : CombatSettingsSpec) (respawnDelayMs : ℚ) (now px py : ℚ)
    (npc : NpcCombatState) (dmg xp : ℤ) : AttackOutcome × NpcCombatState :=
  if cfg.combatEnabled = false then (AttackOutcome.rejected "combat disabled", npc)
  else if npc.defeatedAt.isSome then (AttackOutcome.rejected "target already defeated", npc)
  else if (px - npc.x) * (px - npc.x) + (py - npc.y) * (py - npc.y) >
      cfg.attackRangePx * cfg.attackRangePx then
    (AttackOutcome.rejected "out of range", npc)
  else if cooldownActive npc.lastHitAt now cfg.npcHitCooldownMs then
    (AttackOutcome.rejected "cooldown active", npc)
  else
    let hp2 := npc.currentHp - dmg
    if hp2 ≤ 0 then
      (AttackOutcome.hit dmg true xp,
        { npc with currentHp := hp2, lastHitAt := some now,
                   defeatedAt := some now, respawnAt := some (now + respawnDelayMs) })
    else
      (AttackOutcome.hit dmg false 0, { npc with currentHp := hp2, lastHitAt := some now })

/-- C8: the teleport snap-distance check in `EntityLayer.update` has no
observable effect: both branches assign `renderX`/`renderY` to the computed
target, so the update step equals the same function with the conditional
removed. -/
theorem tinyrealms_c8_snap_check_no_effect :
    ∀ (remote : RemoteState) (rt : ℚ), updateRemote remote rt = updateRemoteNoSnap remote rt := by
  intro remote rt
  unfold updateRemote updateRemoteNoSnap
  cases interpTarget remote.snapshots rt with
  | none => rfl
  | some v =>
    obtain ⟨tx, ty, iDir, iAnim⟩ := v
    simp only [ite_self]

/-- C10: for a guest session, `PresenceManager.start` installs no publish
timer, no forced publish, no position-save timer and no unload handler (it
only subscribes to the presence feed), and `PresenceManager.stop` sends no
`presence.remove` mutation. -/
theorem tinyrealms_c10_guest_read_only :
    startEffects true = [PMEffect.subscribePresenceFeed] ∧
    stopEffects true = [] ∧
    (∀ f, PMEffect.publishNow f ∉ startEffects true) ∧
    PMEffect.installPresenceTimer ∉ startEffects true ∧
    PMEffect.installSaveTimer ∉ startEffects true ∧
    PMEffect.installUnloadHandler ∉ startEffects true ∧
    PMEffect.sendPresenceRemove ∉ stopEffects true := by
  refine ⟨rfl, rfl, ?_, ?_, ?_, ?_, ?_⟩ <;> first
  | exact fun f => by simp [startEffects]
  | simp [startEffects, stopEffects]

/-- C6: a failure of the `presence.update` mutation is caught inside
`publishPresence`'s delivery (`.catch` → `console.warn`): the publish cycle
always resolves successfully (never propagates an exception or rejected
promise), and the resulting throttle state does not depend on the delivery
outcome, so subsequent polling cycles proceed normally. -/
theorem tinyrealms_c6_publish_failure_swallowed :
    ∀ (thr hb : ℚ) (pid mn su nm : String) (st : PresenceMgrState) (pos : PlayerPos)
      (mv : Bool) (now : ℚ) (force : Bool)
      (d1 d2 : PresenceMutationCall → Except String Unit),
      (∃ p, publishCycleWith thr hb pid mn su nm st pos mv now force d1 = Except.ok p) ∧
      Except.map Prod.fst (publishCycleWith thr hb pid mn su nm st pos mv now force d1) =
        Except.map Prod.fst (publishCycleWith thr hb pid mn su nm st pos mv now force d2) := by
  intro thr hb pid mn su nm st pos mv now force d1 d2
  unfold publishCycleWith
  rcases h : publishPresence thr hb pid mn su nm st pos mv now force with ⟨st2, mo⟩
  cases mo with
  | none => exact ⟨⟨(st2, []), rfl⟩, rfl⟩
  | some m =>
    rcases h1 : d1 m with u1 | e1 <;> rcases h2 : d2 m with u2 | e2 <;>
      simp [h1, h2, Except.map]

/-- C5 (divergence witness): with the remote player facing "down" and a
snapshot buffer whose interpolated direction is "left" on the first update
(renderTime 20) and "right" on the second (renderTime 80), the debounce
applies "right" to the sprite although "right" was the interpolated target
for only that single update — contradicting the 2-consecutive-updates rule
stated by the spec and by the code's own comment. -/
theorem tinyrealms_c5_single_update_direction_applied :
    interpTarget [⟨0, 0, 0, 0, "left", "walk", 0⟩, ⟨10, 0, 0, 0, "right", "walk", 100⟩] 20 =
      some (2, 0, "left", "walk") ∧
    interpTarget [⟨0, 0, 0, 0, "left", "walk", 0⟩, ⟨10, 0, 0, 0, "right", "walk", 100⟩] 80 =
      some (8, 0, "right", "walk") ∧
    (updateRemote
      ⟨"sheet", "Player", [⟨0, 0, 0, 0, "left", "walk", 0⟩, ⟨10, 0, 0, 0, "right", "walk", 100⟩],
        0, 0, "down", "idle", 0⟩ 20).direction = "down" ∧
    (updateRemote
      (updateRemote
        ⟨"sheet", "Player", [⟨0, 0, 0, 0, "left", "walk", 0⟩, ⟨10, 0, 0, 0, "right", "walk", 100⟩],
          0, 0, "down", "idle", 0⟩ 20) 80).direction = "right" := by
  have h1 : interpTarget [⟨0, 0, 0, 0, "left", "walk", 0⟩, ⟨10, 0, 0, 0, "right", "walk", 100⟩] 20 =
      some (2, 0, "left", "walk") := by
    norm_num [interpTarget, interpPair, bDown]
  have h2 : interpTarget [⟨0, 0, 0, 0, "left", "walk", 0⟩, ⟨10, 0, 0, 0, "right", "walk", 100⟩] 80 =
      some (8, 0, "right", "walk") := by
    norm_num [interpTarget, interpPair, bDown]
  have h3 : updateRemote
      ⟨"sheet", "Player", [⟨0, 0, 0, 0, "left", "walk", 0⟩, ⟨10, 0, 0, 0, "right", "walk", 100⟩],
        0, 0, "down", "idle", 0⟩ 20 =
      ⟨"sheet", "Player", [⟨0, 0, 0, 0, "left", "walk", 0⟩, ⟨10, 0, 0, 0, "right", "walk", 100⟩],
        2, 0, "down", "walk", 1⟩ := by
    rw [updateRemote]
    norm_num [h1, dirStep, REMOTE_SNAP_DISTANCE_PX]
    decide
  have h4 : updateRemote
      ⟨"sheet", "Player", [⟨0, 0, 0, 0, "left", "walk", 0⟩, ⟨10, 0, 0, 0, "right", "walk", 100⟩],
        2, 0, "down", "walk", 1⟩ 80 =
      ⟨"sheet", "Player", [⟨0, 0, 0, 0, "left", "walk", 0⟩, ⟨10, 0, 0, 0, "right", "walk", 100⟩],
        8, 0, "right", "walk", 0⟩ := by
    rw [updateRemote]
    norm_num [h2, dirStep, REMOTE_SNAP_DISTANCE_PX]
    decide
  exact ⟨h1, h2, by rw [h3], by rw [h3, h4]⟩

/-- C2 (counterexample): with movement threshold 24, a move of exactly 24 px
since the last publish triggers a publish (the code tests `>=`), although
the squared distance does not strictly exceed the squared threshold and the
stationary heartbeat has not elapsed — refuting the claim's "if and only if
... exceeds" as stated. -/
theorem tinyrealms_c2_counterexample :
    ((publishPresence 24 10000 "p" "m" "s" "n" ⟨0, 0, 0⟩ ⟨24, 0, 0, 0, "down"⟩ false 1 false).2 ≠
      none) ∧
    ¬(((24 : ℚ) - 0) * (24 - 0) + (0 - 0) * (0 - 0) > 24 * 24) ∧
    ¬((1 : ℚ) - 0 ≥ 10000) := by
  refine ⟨?_, by norm_num, by norm_num⟩
  norm_num [publishPresence]
  exact Option.some_ne_none _

/-- C2 (amended): `PresenceManager.start` performs one forced publish
immediately for a non-guest session; thereafter each polling cycle sends a
`presence.update` mutation if and only if the squared distance moved since
the last publish is at least the squared movement threshold, or the
stationary-heartbeat interval has elapsed since the last publish; when
neither holds, no mutation is sent and `lastPresenceX`, `lastPresenceY`,
`lastPresenceSentAt` are unchanged. -/
theorem tinyrealms_c2_publish_gate :
    PMEffect.publishNow true ∈ startEffects false ∧
    (∀ (thr hb : ℚ) (pid mn su nm : String) (st : PresenceMgrState) (pos : PlayerPos)
        (mv : Bool) (now : ℚ),
      ((publishPresence thr hb pid mn su nm st pos mv now false).2 ≠ none ↔
        ((pos.x - st.lastPresenceX) * (pos.x - st.lastPresenceX) +
            (pos.y - st.lastPresenceY) * (pos.y - st.lastPresenceY) ≥ thr * thr ∨
          now - st.lastPresenceSentAt ≥ hb))) ∧
    (∀ (thr hb : ℚ) (pid mn su nm : String) (st : PresenceMgrState) (pos : PlayerPos)
        (mv : Bool) (now : ℚ),
      ¬((pos.x - st.lastPresenceX) * (pos.x - st.lastPresenceX) +
          (pos.y - st.lastPresenceY) * (pos.y - st.lastPresenceY) ≥ thr * thr) →
      ¬(now - st.lastPresenceSentAt ≥ hb) →
      publishPresence thr hb pid mn su nm st pos mv now false = (st, none)) := by
  refine ⟨by simp [startEffects], ?_, ?_⟩
  · intro thr hb pid mn su nm st pos mv now
    by_cases hm : (pos.x - st.lastPresenceX) * (pos.x - st.lastPresenceX) +
        (pos.y - st.lastPresenceY) * (pos.y - st.lastPresenceY) ≥ thr * thr
    · simp [publishPresence, hm]
    · by_cases hh : now - st.lastPresenceSentAt ≥ hb
      · simp [publishPresence, hm, hh]
      · simp [publishPresence, hm, hh]
  · intro thr hb pid mn su nm st pos mv now h1 h2
    simp [publishPresence, h1, h2]

/-- C2 (witness): a stationary player one pixel from the last published
position, with threshold 10 and the heartbeat far from due, publishes
nothing and keeps the throttle state. -/
theorem tinyrealms_c2_witness :
    publishPresence 10 10000 "p" "m" "s" "n" ⟨0, 0, 0⟩ ⟨1, 0, 0, 0, "down"⟩ false 5 false =
      (⟨0, 0, 0⟩, none) :=
  tinyrealms_c2_publish_gate.2.2 10 10000 "p" "m" "s" "n" ⟨0, 0, 0⟩ ⟨1, 0, 0, 0, "down"⟩ false 5
    (by norm_num) (by norm_num)

/-- C9: every combat setting written through the map-settings editor inputs
is stored as `clampSetting lo hi n`, the half-up rounding of the input
clamped into the configured bounds (which lands in `[lo, hi]` whenever
`lo ≤ hi`), and a non-finite input leaves the settings record unchanged. -/
theorem tinyrealms_c9_combat_inputs_clamped :
    ∀ (lo hi : ℤ) (s : MapCombatSettings) (n : ℚ), lo ≤ hi →
      ((attackRangeInput lo hi s (some n)).attackRangePx = some (clampSetting lo hi n) ∧
        attackRangeInput lo hi s none = s) ∧
      ((playerAttackCooldownInput lo hi s (some n)).playerAttackCooldownMs =
          some (clampSetting lo hi n) ∧
        playerAttackCooldownInput lo hi s none = s) ∧
      ((npcHitCooldownInput lo hi s (some n)).npcHitCooldownMs = some (clampSetting lo hi n) ∧
        npcHitCooldownInput lo hi s none = s) ∧
      ((damageVarianceInput lo hi s (some n)).damageVariancePct = some (clampSetting lo hi n) ∧
        damageVarianceInput lo hi s none = s) ∧
      lo ≤ clampSetting lo hi n ∧ clampSetting lo hi n ≤ hi := by
  intro lo hi s n h
  exact ⟨⟨rfl, rfl⟩, ⟨rfl, rfl⟩, ⟨rfl, rfl⟩, ⟨rfl, rfl⟩,
    le_max_left lo _, max_le h (min_le_left hi _)⟩

/-- C9 (witness): the attack-range editor input at value 1000 with bounds
8..256 stores the clamp, and a non-finite input is a no-op. -/
theorem tinyrealms_c9_witness :
    ((attackRangeInput 8 256 ⟨none, none, none, none⟩ (some 1000)).attackRangePx =
        some (clampSetting 8 256 1000) ∧
      attackRangeInput 8 256 ⟨none, none, none, none⟩ none = ⟨none, none, none, none⟩) ∧
    ((playerAttackCooldownInput 8 256 ⟨none, none, none, none⟩ (some 1000)).playerAttackCooldownMs =
        some (clampSetting 8 256 1000) ∧
      playerAttackCooldownInput 8 256 ⟨none, none, none, none⟩ none = ⟨none, none, none, none⟩) ∧
    ((npcHitCooldownInput 8 256 ⟨none, none, none, none⟩ (some 1000)).npcHitCooldownMs =
        some (clampSetting 8 256 1000) ∧
      npcHitCooldownInput 8 256 ⟨none, none, none, none⟩ none = ⟨none, none, none, none⟩) ∧
    ((damageVarianceInput 8 256 ⟨none, none, none, none⟩ (some 1000)).damageVariancePct =
        some (clampSetting 8 256 1000) ∧
      damageVarianceInput 8 256 ⟨none, none, none, none⟩ none = ⟨none, none, none, none⟩) ∧
    (8 : ℤ) ≤ clampSetting 8 256 1000 ∧ clampSetting 8 256 1000 ≤ 256 :=
  tinyrealms_c9_combat_inputs_clamped 8 256 ⟨none, none, none, none⟩ 1000 (by decide)

/-- Snapshot receipt times are monotone along the buffer when consecutive
entries are ordered (they are appended at `performance.now()`). -/
theorem interp_time_mono (snaps : List Snap)
    (h : List.Chain' (fun a b => a.time ≤ b.time) snaps) :
    ∀ p q : Nat, p ≤ q → q < snaps.length →
      (snaps.getD p default).time ≤ (snaps.getD q default).time := by
  intro p q hpq hq
  rcases Nat.eq_or_lt_of_le hpq with rfl | hlt
  · exact le_refl _
  · have hp : p < snaps.length := lt_trans hlt hq
    haveI : IsTrans Snap (fun a b => a.time ≤ b.time) := ⟨fun _ _ _ h1 h2 => le_trans h1 h2⟩
    have hpw := List.chain'_iff_pairwise.mp h
    have hg := List.pairwise_iff_getElem.mp hpw p q hp hq hlt
    rw [List.getD_eq_getElem snaps default hp, List.getD_eq_getElem snaps default hq]
    exact hg

/-- Unfolding equation of the while-loop model at a positive index. -/
theorem bDown_succ (snaps : List Snap) (rt : ℚ) (n : Nat) :
    bDown snaps rt (n + 1) =
      if rt < (snaps.getD (n + 1) default).time then bDown snaps rt n else n + 1 := rfl

/-- The while loop modelled by `bDown` stops exactly at the greatest index
whose snapshot time is at or before the render time. -/
theorem bDown_eq_of (snaps : List Snap) (rt : ℚ) :
    ∀ i j : Nat, j ≤ i →
      (snaps.getD j default).time ≤ rt →
      (∀ k, j < k → k ≤ i → rt < (snaps.getD k default).time) →
      bDown snaps rt i = j := by
  intro i
  induction i with
  | zero =>
    intro j hj _ _
    have hz : j = 0 := Nat.le_zero.mp hj
    subst hz
    rfl
  | succ n ih =>
    intro j hj h1 h2
    by_cases hje : j = n + 1
    · subst hje
      have hn : ¬ rt < (snaps.getD (n + 1) default).time := not_lt.mpr h1
      rw [bDown_succ, if_neg hn]
    · have hjn : j ≤ n := Nat.lt_succ_iff.mp (Nat.lt_of_le_of_ne hj hje)
      have hc : rt < (snaps.getD (n + 1) default).time :=
        h2 (n + 1) (Nat.lt_succ_of_le hjn) (le_refl _)
      rw [bDown_succ, if_pos hc]
      exact ih j hjn h1 (fun k hk1 hk2 => h2 k hk1 (Nat.le_succ_of_le hk2))

/-- The while loop does not move when the render time is at or past the
latest snapshot's time. -/
theorem bDown_last (snaps : List Snap) (rt : ℚ) (n : Nat)
    (h : ¬ rt < (snaps.getD (n + 1) default).time) :
    bDown snaps rt (n + 1) = n + 1 := by
  rw [bDown_succ, if_neg h]

/-- C1: interpolation boundedness of `EntityLayer.update`. First, whenever
two consecutive snapshots bracket the render time (`a.time < renderTime <
b.time`, buffer times monotone), the computed position is `a + t·(b − a)`
with the interpolation parameter `t` clamped to `[0, 1]`, hence on the
straight segment between the two snapshot positions. Second, once the
render time is at or past the latest snapshot's time the position is held
exactly at the latest snapshot — never extrapolated beyond it. Third, a
buffer holding exactly one snapshot holds position at that snapshot with no
velocity-based prediction. -/
theorem tinyrealms_c1_interpolation_bounded :
    (∀ (snaps : List Snap) (rt : ℚ) (j : Nat),
      List.Chain' (fun a b => a.time ≤ b.time) snaps →
      j + 1 < snaps.length →
      (snaps.getD j default).time < rt →
      rt < (snaps.getD (j + 1) default).time →
      ∃ t, 0 ≤ t ∧ t ≤ 1 ∧ ∃ d an,
        interpTarget snaps rt =
          some ((snaps.getD j default).x +
              ((snaps.getD (j + 1) default).x - (snaps.getD j default).x) * t,
            (snaps.getD j default).y +
              ((snaps.getD (j + 1) default).y - (snaps.getD j default).y) * t, d, an)) ∧
    (∀ (snaps : List Snap) (rt : ℚ),
      1 ≤ snaps.length →
      (snaps.getD (snaps.length - 1) default).time ≤ rt →
      interpTarget snaps rt =
        some ((snaps.getD (snaps.length - 1) default).x,
          (snaps.getD (snaps.length - 1) default).y,
          (snaps.getD (snaps.length - 1) default).direction,
          (snaps.getD (snaps.length - 1) default).animation)) ∧
    (∀ (s : Snap) (rt : ℚ),
      interpTarget [s] rt = some (s.x, s.y, s.direction, s.animation)) := by
  refine ⟨?_, ?_, ?_⟩
  · intro snaps rt j hchain hlen ha hb
    have h2len : 2 ≤ snaps.length := by omega
    have hj1 : j + 1 ≤ snaps.length - 1 := by omega
    have hbd : bDown snaps rt (snaps.length - 1) = j := by
      apply bDown_eq_of snaps rt (snaps.length - 1) j (by omega) (le_of_lt ha)
      intro k hk1 hk2
      have hkl : k < snaps.length := by omega
      exact lt_of_lt_of_le hb (interp_time_mono snaps hchain (j + 1) k hk1 hkl)
    have hmin : min (j + 1) (snaps.length - 1) = j + 1 := min_eq_left hj1
    have hne : ¬(j + 1 = j ∨
        (snaps.getD j default).time = (snaps.getD (j + 1) default).time) := by
      push_neg
      exact ⟨Nat.succ_ne_self j, ne_of_lt (lt_trans ha hb)⟩
    refine ⟨max 0 (min 1 ((rt - (snaps.getD j default).time) /
        ((snaps.getD (j + 1) default).time - (snaps.getD j default).time))),
      le_max_left _ _, max_le zero_le_one (min_le_left _ _),
      (if max 0 (min 1 ((rt - (snaps.getD j default).time) /
          ((snaps.getD (j + 1) default).time - (snaps.getD j default).time))) < 1 / 2 then
        (snaps.getD j default).direction else (snaps.getD (j + 1) default).direction),
      (if max 0 (min 1 ((rt - (snaps.getD j default).time) /
          ((snaps.getD (j + 1) default).time - (snaps.getD j default).time))) < 1 / 2 then
        (snaps.getD j default).animation else (snaps.getD (j + 1) default).animation), ?_⟩
    rw [interpTarget, if_pos h2len, hbd, interpPair]
    simp only [hmin]
    rw [if_neg hne]
  · intro snaps rt hlen hrt
    by_cases h2 : 2 ≤ snaps.length
    · obtain ⟨m, hm⟩ : ∃ m, snaps.length - 1 = m + 1 := ⟨snaps.length - 2, by omega⟩
      have hbd : bDown snaps rt (snaps.length - 1) = snaps.length - 1 := by
        rw [hm]
        exact bDown_last snaps rt m (by rw [← hm]; exact not_lt.mpr hrt)
      have hmin : min (snaps.length - 1 + 1) (snaps.length - 1) = snaps.length - 1 :=
        min_eq_right (by omega)
      rw [interpTarget, if_pos h2, hbd, interpPair]
      simp only [hmin]
      simp
    · have h1 : snaps.length = 1 := by omega
      rw [interpTarget, if_neg h2, if_pos h1, h1]
  · intro s rt
    rfl

/-- C1 (witness): two snapshots at times 0 and 100 bracketing render time
50 yield a point on their segment; render time 200 holds at the latest
snapshot; a singleton buffer holds at its only snapshot. -/
theorem tinyrealms_c1_witness :
    (∃ t, 0 ≤ t ∧ t ≤ 1 ∧ ∃ d an,
      interpTarget [⟨0, 0, 0, 0, "down", "idle", 0⟩, ⟨10, 0, 0, 0, "right", "walk", 100⟩] 50 =
        some ((0 : ℚ) + ((10 : ℚ) - 0) * t, (0 : ℚ) + ((0 : ℚ) - 0) * t, d, an)) ∧
    interpTarget [⟨0, 0, 0, 0, "down", "idle", 0⟩, ⟨10, 0, 0, 0, "right", "walk", 100⟩] 200 =
      some (10, 0, "right", "walk") ∧
    interpTarget [⟨5, 6, 0, 0, "up", "idle", 42⟩] 7 = some (5, 6, "up", "idle") :=
  ⟨tinyrealms_c1_interpolation_bounded.1
      [⟨0, 0, 0, 0, "down", "idle", 0⟩, ⟨10, 0, 0, 0, "right", "walk", 100⟩] 50 0
      (by norm_num [List.chain'_cons]) (by norm_num) (by norm_num [List.getD])
      (by norm_num [List.getD]),
    tinyrealms_c1_interpolation_bounded.2.1
      [⟨0, 0, 0, 0, "down", "idle", 0⟩, ⟨10, 0, 0, 0, "right", "walk", 100⟩] 200
      (by norm_num) (by norm_num [List.getD]),
    tinyrealms_c1_interpolation_bounded.2.2 ⟨5, 6, 0, 0, "up", "idle", 42⟩ 7⟩

/-- The trim loop leaves at most `INTERP_MAX_SNAPSHOTS` snapshots. -/
theorem trimOld_length_le : ∀ l : List Snap, (trimOld l).length ≤ INTERP_MAX_SNAPSHOTS := by
  intro l
  induction l with
  | nil =>
    rw [show trimOld [] = [] from rfl]
    simp [INTERP_MAX_SNAPSHOTS]
  | cons s rest ih =>
    have e : trimOld (s :: rest) =
        if (s :: rest).length > INTERP_MAX_SNAPSHOTS then trimOld rest else s :: rest := rfl
    rw [e]
    by_cases h : (s :: rest).length > INTERP_MAX_SNAPSHOTS
    · rw [if_pos h]; exact ih
    · rw [if_neg h]; exact not_lt.mp h

/-- Evaluation of one presence step at its own profileId: the stored record
carries the pushed-and-trimmed snapshot buffer. -/
theorem processOne_self (m : RPMap) (p : PresenceData) (now : ℚ) :
    processOne m p now p.profileId =
      some { (match m p.profileId with | some r => r | none => newRemote p) with
        snapshots := trimOld ((match m p.profileId with
          | some r => r | none => newRemote p).snapshots ++ [mkSnap p now]),
        label := (if p.name = "" then "Player" else p.name) } := by
  simp [processOne]

/-- One presence step leaves every other key of the map untouched. -/
theorem processOne_other (m : RPMap) (p : PresenceData) (now : ℚ) (k : String)
    (h : k ≠ p.profileId) :
    processOne m p now k = m k := by
  simp [processOne, h]

/-- Folding the presence feed preserves the per-key snapshot bound. -/
theorem fold_good (localId : String) (now : ℚ) (k : String) :
    ∀ (ps : List PresenceData) (m : RPMap),
      (∀ r, m k = some r → r.snapshots.length ≤ INTERP_MAX_SNAPSHOTS) →
      ∀ r, (ps.foldl (fun acc p =>
          if p.profileId = localId then acc else processOne acc p now) m) k = some r →
        r.snapshots.length ≤ INTERP_MAX_SNAPSHOTS := by
  intro ps
  induction ps with
  | nil => intro m hm r h; exact hm r h
  | cons p rest ih =>
    intro m hm r h
    simp only [List.foldl_cons] at h
    refine ih _ ?_ r h
    by_cases hp : p.profileId = localId
    · rw [if_pos hp]; exact hm
    · rw [if_neg hp]
      intro r2 h2
      by_cases hk : k = p.profileId
      · subst hk
        rw [processOne_self] at h2
        have h3 := Option.some.inj h2
        subst h3
        exact trimOld_length_le _
      · rw [processOne_other _ _ _ _ hk] at h2
        exact hm r2 h2

/-- Any key fed through the fold by a non-local presence entry ends with a
bounded snapshot buffer. -/
theorem fold_est (localId : String) (now : ℚ) (k : String) :
    ∀ (ps : List PresenceData) (m : RPMap),
      (∃ p ∈ ps, p.profileId = k ∧ p.profileId ≠ localId) →
      ∀ r, (ps.foldl (fun acc p =>
          if p.profileId = localId then acc else processOne acc p now) m) k = some r →
        r.snapshots.length ≤ INTERP_MAX_SNAPSHOTS := by
  intro ps
  induction ps with
  | nil => rintro m ⟨p, hp, _⟩ r h; cases hp
  | cons q rest ih =>
    rintro m ⟨p, hp, hpk, hpl⟩ r h
    simp only [List.foldl_cons] at h
    rcases List.mem_cons.mp hp with rfl | hp2
    · rw [if_neg hpl] at h
      refine fold_good localId now k rest _ ?_ r h
      intro r2 h2
      subst hpk
      rw [processOne_self] at h2
      have h3 := Option.some.inj h2
      subst h3
      exact trimOld_length_le _
    · exact ih _ ⟨p, hp2, hpk, hpl⟩ r h

/-- Membership in the collected `activeIds` list. -/
theorem mem_activeIds (ps : List PresenceData) (localId k : String) :
    k ∈ activeIds ps localId ↔ ∃ p ∈ ps, p.profileId = k ∧ p.profileId ≠ localId := by
  unfold activeIds
  simp only [List.mem_map, List.mem_filter, decide_eq_true_eq]
  constructor
  · rintro ⟨p, ⟨hp, hpl⟩, hpk⟩; exact ⟨p, hp, hpk, hpl⟩
  · rintro ⟨p, hp, hpk, hpl⟩; exact ⟨p, ⟨hp, hpl⟩, hpk⟩

/-- C3: after every delivery of a presence feed (`EntityLayer.updatePresence`),
each tracked remote player's snapshot buffer holds at most
`INTERP_MAX_SNAPSHOTS` (6) snapshots — the oldest are dropped first, so the
per-entity buffer never grows without bound. -/
theorem tinyrealms_c3_buffer_bounded :
    ∀ (m : RPMap) (ps : List PresenceData) (localId : String) (now : ℚ) (k : String)
      (r : RemoteState),
      updatePresence m ps localId now k = some r →
      r.snapshots.length ≤ INTERP_MAX_SNAPSHOTS := by
  intro m ps localId now k r h
  simp only [updatePresence] at h
  by_cases hk : k ∈ activeIds ps localId
  · rw [if_pos hk] at h
    exact fold_est localId now k ps m ((mem_activeIds ps localId k).mp hk) r h
  · rw [if_neg hk] at h
    cases h

/-- C3 (witness): delivering one presence entry to an empty map yields a
tracked remote whose buffer bound follows from the theorem. -/
theorem tinyrealms_c3_witness :
    ∃ r, updatePresence (fun _ => none)
        [⟨"alice", "Alice", "sheet", 1, 2, 0, 0, "down", "idle", 0⟩] "me" 0 "alice" = some r ∧
      r.snapshots.length ≤ INTERP_MAX_SNAPSHOTS := by
  have h : updatePresence (fun _ => none)
      [⟨"alice", "Alice", "sheet", 1, 2, 0, 0, "down", "idle", 0⟩] "me" 0 "alice" =
      some ⟨"sheet", "Alice", [⟨1, 2, 0, 0, "down", "idle", 0⟩], 1, 2, "down", "idle", 0⟩ := by
    norm_num [updatePresence, activeIds, processOne, newRemote, mkSnap, trimOld,
      INTERP_MAX_SNAPSHOTS]
    exact ⟨⟨_, ⟨rfl, by decide⟩, rfl⟩, by simp⟩
  exact ⟨_, h, tinyrealms_c3_buffer_bounded _ _ _ _ _ _ h⟩

/-- The fold keeps any key that already has an entry. -/
theorem fold_isSome (localId : String) (now : ℚ) (k : String) :
    ∀ (ps : List PresenceData) (m : RPMap),
      (m k).isSome = true →
      ((ps.foldl (fun acc p =>
          if p.profileId = localId then acc else processOne acc p now) m) k).isSome = true := by
  intro ps
  induction ps with
  | nil => intro m hm; exact hm
  | cons p rest ih =>
    intro m hm
    simp only [List.foldl_cons]
    refine ih _ ?_
    by_cases hp : p.profileId = localId
    · rw [if_pos hp]; exact hm
    · rw [if_neg hp]
      by_cases hk : k = p.profileId
      · subst hk; rw [processOne_self]; rfl
      · rw [processOne_other _ _ _ _ hk]; exact hm

/-- Any key fed through the fold by a non-local presence entry ends with an
entry in the map. -/
theorem fold_isSome_of_mem (localId : String) (now : ℚ) (k : String) :
    ∀ (ps : List PresenceData) (m : RPMap),
      (∃ p ∈ ps, p.profileId = k ∧ p.profileId ≠ localId) →
      ((ps.foldl (fun acc p =>
          if p.profileId = localId then acc else processOne acc p now) m) k).isSome = true := by
  intro ps
  induction ps with
  | nil => rintro m ⟨p, hp, _⟩; cases hp
  | cons q rest ih =>
    rintro m ⟨p, hp, hpk, hpl⟩
    simp only [List.foldl_cons]
    rcases List.mem_cons.mp hp with rfl | hp2
    · rw [if_neg hpl]
      refine fold_isSome localId now k rest _ ?_
      subst hpk
      rw [processOne_self]
      rfl
    · exact ih _ ⟨p, hp2, hpk, hpl⟩

/-- C4: after each `EntityLayer.updatePresence` call, the set of locally
tracked remote players is exactly the set of profileIds in the delivered
feed minus the local player's own id — entities absent from the feed are
removed during the same call, with no per-entity client timeout. -/
theorem tinyrealms_c4_feed_is_authoritative :
    ∀ (m : RPMap) (ps : List PresenceData) (localId : String) (now : ℚ) (k : String),
      (updatePresence m ps localId now k).isSome = true ↔
        (k ≠ localId ∧ ∃ p ∈ ps, p.profileId = k) := by
  intro m ps localId now k
  simp only [updatePresence]
  by_cases hk : k ∈ activeIds ps localId
  · rw [if_pos hk]
    obtain ⟨p, hp, hpk, hpl⟩ := (mem_activeIds ps localId k).mp hk
    constructor
    · intro _
      exact ⟨hpk ▸ hpl, p, hp, hpk⟩
    · intro _
      exact fold_isSome_of_mem localId now k ps m ⟨p, hp, hpk, hpl⟩
  · rw [if_neg hk]
    simp only [Option.isSome_none, Bool.false_eq_true, false_iff]
    rintro ⟨hkl, p, hp, hpk⟩
    exact hk ((mem_activeIds ps localId k).mpr ⟨p, hp, hpk, hpk ▸ hkl⟩)

/-- C4 (witness): with one non-local feed entry, the tracked-set membership
equivalence instantiates at the delivered profileId. -/
theorem tinyrealms_c4_witness :
    (updatePresence (fun _ => none)
        [⟨"alice", "Alice", "sheet", 1, 2, 0, 0, "down", "idle", 0⟩] "me" 0 "alice").isSome =
        true ↔
      ("alice" ≠ "me" ∧ ∃ p ∈ [(⟨"alice", "Alice", "sheet", 1, 2, 0, 0, "down", "idle",
        0⟩ : PresenceData)], p.profileId = "alice") :=
  tinyrealms_c4_feed_is_authoritative (fun _ => none)
    [⟨"alice", "Alice", "sheet", 1, 2, 0, 0, "down", "idle", 0⟩] "me" 0 "alice"

/-- C7 (spec-modelled): for a fixed NPC target, once an attack resolution has
applied damage at `now1` (stamping `lastHitAt := now1`), a retried or
duplicated request at any `now2` still inside the per-target cooldown window
is rejected by the cooldown/defeat check and leaves the target's state
unchanged — so a single attack request causes at most one HP deduction and
at most one reward grant. -/
theorem tinyrealms_c7_no_double_damage :
    ∀ (cfg : CombatSettingsSpec) (rd now1 now2 px py : ℚ) (npc : NpcCombatState)
      (dmg xp d : ℤ) (b : Bool) (x : ℤ) (npc1 : NpcCombatState),
      attackTarget cfg rd now1 px py npc dmg xp = (AttackOutcome.hit d b x, npc1) →
      now2 - now1 < cfg.npcHitCooldownMs →
      npc1.currentHp = npc.currentHp - dmg ∧
      ∃ reason, attackTarget cfg rd now2 px py npc1 dmg xp =
        (AttackOutcome.rejected reason, npc1) := by
  intro cfg rd now1 now2 px py npc dmg xp d b x npc1 h1 hcd
  simp only [attackTarget] at h1
  split_ifs at h1 with he hd hr hc hl
  · exact absurd h1 (by simp)
  · exact absurd h1 (by simp)
  · exact absurd h1 (by simp)
  · exact absurd h1 (by simp)
  · rw [Prod.mk.injEq] at h1
    obtain ⟨h1a, h1b⟩ := h1
    subst h1b
    refine ⟨rfl, "target already defeated", ?_⟩
    simp [attackTarget, he]
  · rw [Prod.mk.injEq] at h1
    obtain ⟨h1a, h1b⟩ := h1
    subst h1b
    refine ⟨rfl, "cooldown active", ?_⟩
    simp only [attackTarget, cooldownActive]
    simp [he, hd, hr, hcd]

/-- C7 (witness): an attack resolved at time 1000 (HP 30 → 25, cooldown
800 ms) makes the duplicate request at time 1500 a rejection that leaves the
target unchanged. -/
theorem tinyrealms_c7_witness :
    (⟨100, 100, 25, 30, some 1000, none, none⟩ : NpcCombatState).currentHp = 30 - 5 ∧
    ∃ reason,
      attackTarget ⟨true, 64, 800, 800, 0⟩ 30000 1500 110 100
          ⟨100, 100, 25, 30, some 1000, none, none⟩ 5 0 =
        (AttackOutcome.rejected reason, ⟨100, 100, 25, 30, some 1000, none, none⟩) :=
  tinyrealms_c7_no_double_damage ⟨true, 64, 800, 800, 0⟩ 30000 1000 1500 110 100
    ⟨100, 100, 30, 30, none, none, none⟩ 5 0 5 false 0
    ⟨100, 100, 25, 30, some 1000, none, none⟩
    (by norm_num [attackTarget, cooldownActive]) (by norm_num)
